import Mathlib

/-!
Verification of the live operational state aggregation and streaming
subsystem of the cashu-admin-ui server (server.js, current version).

The JavaScript source is shallowly embedded: each Express handler and
helper becomes a pure Lean function over an explicit environment
(outcomes of HTTP probes, sqlite queries and OS reads are inputs), the
mutable buffers (`logBuffer`, `monitoringData.requests`) are passed as
explicit state, and WebSocket sends are returned as an explicit list of
(client id, message) pairs.  JavaScript semantics that matter are
modelled exactly: `Array.prototype.slice(-n)` (with `slice(-0)` keeping
the whole array), string `<`/`>` as code-unit lexicographic comparison,
and truthiness of strings (`"" ↦ false`) and numbers (`0 ↦ false`).
Floating-point derived percentages are modelled over ℚ without the
`toFixed(1)` rounding; no claim depends on their rounded values.
-/

namespace CashuAdmin

/-- JS `arr.slice(-n)` for a nonnegative `n` : the last `n` elements,
except that `slice(-0)` is `slice(0)`, i.e. the whole array. -/
def jsSliceLast (n : Nat) (l : List α) : List α :=
  if n = 0 then l else l.drop (l.length - n)

/-- JS string `<` on code units (lexicographic), on the underlying
character lists.  For the ASCII ids produced by `addLog` this agrees
with JS UTF-16 code-unit comparison. -/
def jsStrLtAux : List Char → List Char → Bool
  | [], [] => false
  | [], _ :: _ => true
  | _ :: _, [] => false
  | a :: as, b :: bs =>
    if a.toNat < b.toNat then true
    else if b.toNat < a.toNat then false
    else jsStrLtAux as bs

/-- JS string comparison `s < t`. -/
def jsStrLt (s t : String) : Bool :=
  jsStrLtAux s.data t.data

-- ---------------------------------------------------------------------------
-- Bounded ring buffers: `logBuffer.push` + `slice(-MAX_LOG_ENTRIES)`, and
-- `monitoringData.requests.push` + `slice(-1000)` share this discipline.
-- ---------------------------------------------------------------------------

/-- The JS sequence `buf.push(x); if (buf.length > C) buf = buf.slice(-C)`. -/
def appendCapped (C : Nat) (buf : List α) (x : α) : List α :=
  let b := buf ++ [x]
  if C < b.length then jsSliceLast C b else b

/-- The constant `MAX_LOG_ENTRIES = 2000`. -/
def MAX_LOG_ENTRIES : Nat := 2000

/-- The activity buffer cap used in the simulate handler
(`if (monitoringData.requests.length > 1000) ... slice(-1000)`). -/
def MAX_ACTIVITY_ENTRIES : Nat := 1000

-- ---------------------------------------------------------------------------
-- Data model
-- ---------------------------------------------------------------------------

/-- A structured log entry as built by `addLog` (the `id` and `timestamp`
are produced from the clock and `Math.random`, so they are inputs here). -/
structure LogEntry where
  id : String
  timestamp : String
  level : String
  source : String
  message : String
  meta : Option String
deriving DecidableEq, Repr

/-- An activity record as built by the simulate endpoint. -/
structure Activity where
  id : String
  type : String
  amount : Nat
  timestamp : Nat
  ip : String
deriving DecidableEq, Repr

/-- The `monitoringData` in-memory monitoring store. -/
structure MonitoringData where
  requests : List Activity
  dbStats : List (String × String)
  systemStats : List (String × String)
deriving DecidableEq, Repr

/-- The `WebSocket.OPEN` readyState constant. -/
def WS_OPEN : Nat := 1

/-- A connected WebSocket client: identity plus `readyState`. -/
structure WsClient where
  id : Nat
  readyState : Nat
deriving DecidableEq, Repr

/-- Server→client WebSocket message envelope
(`{type: "connected"|"stats"|"log", ...}`). -/
inductive WsMsg where
  | connected (timestamp : Nat)
  | stats (requests : List Activity) (timestamp : Nat)
  | log (data : LogEntry)
deriving DecidableEq, Repr

/-- The broadcast loop inside `addLog`:
`wss.clients.forEach(ws => { if (ws.readyState === WebSocket.OPEN)
ws.send({type: "log", data: entry}) })`, as the list of performed sends. -/
def broadcastLog (clients : List WsClient) (entry : LogEntry) :
    List (Nat × WsMsg) :=
  clients.filterMap fun c =>
    if c.readyState = WS_OPEN then some (c.id, WsMsg.log entry) else none

/-- The `addLog` function: append the entry to the capped `logBuffer` and broadcast it
to all OPEN clients.  Returns (new buffer, sends performed synchronously
inside the call). -/
def addLog (buf : List LogEntry) (clients : List WsClient)
    (entry : LogEntry) : List LogEntry × List (Nat × WsMsg) :=
  (appendCapped MAX_LOG_ENTRIES buf entry, broadcastLog clients entry)

/-- Entry construction inside `addLog` (`meta: meta || null` is reflected
by the caller passing `none` for absent metadata). -/
def mkLogEntry (id timestamp level source message : String)
    (meta : Option String) : LogEntry :=
  { id, timestamp, level, source, message, meta }

-- ---------------------------------------------------------------------------
-- Ring buffer lemmas (shared helpers)
-- ---------------------------------------------------------------------------

theorem jsSliceLast_of_pos (n : Nat) (hn : 0 < n) (l : List α) :
    jsSliceLast n l = l.drop (l.length - n) := by
  unfold jsSliceLast
  simp [Nat.pos_iff_ne_zero.mp hn]

theorem appendCapped_foldl (C : Nat) (hC : 0 < C) (xs : List α) :
    xs.foldl (appendCapped C) [] = xs.drop (xs.length - C) := by
  induction xs using List.reverseRecOn with
  | nil => simp
  | append_singleton ys x ih =>
    rw [List.foldl_append, List.foldl_cons, List.foldl_nil, ih]
    unfold appendCapped
    by_cases hlt : ys.length < C
    · have h1 : ys.length - C = 0 := by omega
      have h2 : ys.length + 1 - C = 0 := by omega
      simp [h1, h2, jsSliceLast]
    · push_neg at hlt
      have hdlen : (ys.drop (ys.length - C)).length = C := by
        rw [List.length_drop]; omega
      have hcond : C < (ys.drop (ys.length - C) ++ [x]).length := by
        rw [List.length_append, hdlen]; simp
      rw [if_pos hcond, jsSliceLast_of_pos C hC]
      rw [List.length_append, hdlen]
      have hCsub : C + 1 - C = 1 := by omega
      simp only [List.length_cons, List.length_nil, hCsub]
      rw [List.drop_append_of_le_length (by omega : 1 ≤ (ys.drop (ys.length - C)).length),
          List.drop_drop, List.length_append]
      have h3 : ys.length + 1 - C = 1 + (ys.length - C) := by omega
      simp only [List.length_cons, List.length_nil, h3]
      rw [List.drop_append_of_le_length (show 1 + (ys.length - C) ≤ ys.length by omega)]
      have h4 : ys.length - C + 1 = 1 + (ys.length - C) := by omega
      rw [h4]

theorem appendCapped_foldl_length (C : Nat) (hC : 0 < C) (xs : List α) :
    (xs.foldl (appendCapped C) []).length = min xs.length C := by
  rw [appendCapped_foldl C hC, List.length_drop]
  omega

-- ---------------------------------------------------------------------------
-- GET /api/admin/logs
-- ---------------------------------------------------------------------------

/-- Response of the logs endpoint: `{ total: logs.length, logs }`. -/
structure LogsResponse where
  total : Nat
  logs : List LogEntry
deriving DecidableEq, Repr

/-- The `GET /api/admin/logs` handler body.  `level`, `source`, `since` are
query parameters (absent ↦ `none`); a present-but-empty string is falsy
in JS, so `if (level) ...` skips the filter.  `lim` is
`parseInt(limit)` with default 200.  The `since` filter compares ids
with JS string `>`. -/
def logsHandler (logBuffer : List LogEntry)
    (level source since : Option String) (lim : Nat) : LogsResponse :=
  let logs := logBuffer
  let logs := match level with
    | some v => if v = "" then logs else logs.filter (fun l => l.level == v)
    | none => logs
  let logs := match source with
    | some v => if v = "" then logs else logs.filter (fun l => l.source == v)
    | none => logs
  let logs := match since with
    | some v => if v = "" then logs else logs.filter (fun l => jsStrLt v l.id)
    | none => logs
  let logs := jsSliceLast lim logs
  { total := logs.length, logs }

/-- The entries appended strictly after the (first) entry with id `x`,
in a buffer listed in insertion order. -/
def suffixAfterId (buf : List LogEntry) (x : String) : List LogEntry :=
  (buf.dropWhile fun e => e.id != x).drop 1

-- ---------------------------------------------------------------------------
-- POST /api/admin/logs/clear and POST /api/admin/monitoring/clear
-- ---------------------------------------------------------------------------

/-- Response `{ success: true }`. -/
structure ClearResponse where
  success : Bool
deriving DecidableEq, Repr

/-- Response `{ success: true, message: ... }`. -/
structure ClearMonitoringResponse where
  success : Bool
  message : String
deriving DecidableEq, Repr

/-- The `POST /api/admin/logs/clear` handler: sets `logBuffer = []`, then calls
`addLog("info", "admin", "Log buffer cleared")` (which appends to the
just-cleared buffer and broadcasts), then responds `{success: true}`.
`id`/`timestamp` are the clock/random values the new entry gets. -/
def logsClearHandler (clients : List WsClient) (id timestamp : String) :
    (List LogEntry × List (Nat × WsMsg)) × ClearResponse :=
  let cleared : List LogEntry := []
  let r := addLog cleared clients
    (mkLogEntry id timestamp "info" "admin" "Log buffer cleared" none)
  (r, { success := true })

/-- The `POST /api/admin/monitoring/clear` handler: sets `monitoringData.requests = []`
and `monitoringData.dbStats = {}`, logs a notice into the *log* buffer,
and responds.  Returns (new monitoring store, (new log buffer, sends),
response). -/
def monitoringClearHandler (mon : MonitoringData) (logBuf : List LogEntry)
    (clients : List WsClient) (id timestamp : String) :
    MonitoringData × (List LogEntry × List (Nat × WsMsg)) × ClearMonitoringResponse :=
  let mon2 := { mon with requests := [], dbStats := [] }
  let r := addLog logBuf clients
    (mkLogEntry id timestamp "info" "admin" "Monitoring data cleared" none)
  (mon2, r, { success := true, message := "Monitoring data cleared" })

-- ---------------------------------------------------------------------------
-- GET /api/admin/activity and POST /api/admin/activity/simulate
-- ---------------------------------------------------------------------------

/-- Response `{ total: activities.length, activities }`. -/
structure ActivityResponse where
  total : Nat
  activities : List Activity
deriving DecidableEq, Repr

/-- The `GET /api/admin/activity` handler body:
`let activities = monitoringData.requests.slice(-parseInt(limit));
if (type) activities = activities.filter(a => a.type === type);`
Note the truncation happens BEFORE the type filter. -/
def activityHandler (mon : MonitoringData) (lim : Nat)
    (type : Option String) : ActivityResponse :=
  let activities := jsSliceLast lim mon.requests
  let activities := match type with
    | some t => if t = "" then activities
                else activities.filter (fun a => a.type == t)
    | none => activities
  { total := activities.length, activities }

/-- The `POST /api/admin/activity/simulate` buffer discipline: push the
built activity record, then cap at 1000 via `slice(-1000)`.  The
record itself (random type/amount when absent from the body) is an
input. -/
def simulateHandler (mon : MonitoringData) (activity : Activity) :
    MonitoringData :=
  { mon with
    requests := appendCapped MAX_ACTIVITY_ENTRIES mon.requests activity }

-- ---------------------------------------------------------------------------
-- GET /api/admin/mint/health
-- ---------------------------------------------------------------------------

/-- The fields of the remote `/v1/info` JSON payload this subsystem
reads (`time`, `version`, `name`); each may be absent. -/
structure InfoPayload where
  name : Option String
  version : Option String
  time : Option Int
deriving DecidableEq, Repr

/-- The health endpoint response.  Fields that the failure branch does
not populate are `Option`s.  `mintTimeISO` (a pure reformatting of
`mintTime`) is not modelled. -/
structure HealthResponse where
  reachable : Bool
  latencyMs : Int
  mintUrl : String
  mintTime : Option Int
  localTime : Option Int
  clockDriftSec : Option Int
  version : Option String
  name : Option String
  error : Option String
deriving DecidableEq, Repr

/-- JS truthiness of an optional string (`undefined`, `""` falsy):
`x || null`. -/
def strOrNull (s : Option String) : Option String :=
  match s with
  | some v => if v = "" then none else some v
  | none => none

/-- The `GET /api/admin/mint/health` handler.  `start` is `Date.now()` at
entry; `stop` is `Date.now()` at the success/failure point (both in
ms); `result` is the outcome of
`axios.get(mintUrl + "/v1/info", { timeout: 10000 })`.
`localTime = Math.floor(Date.now()/1000)`;
`clockDriftSec = mintTime ? (localTime - mintTime) : null` — note the
JS truthiness: a present timestamp equal to 0 yields `null`, and the
echoed `mintTime` field is `mintTime || null`. -/
def healthHandler (url : String) (start stop : Nat)
    (result : Except String InfoPayload) : HealthResponse :=
  match result with
  | .ok d =>
    let latencyMs : Int := (stop : Int) - (start : Int)
    let localTime : Int := ((stop / 1000 : Nat) : Int)
    { reachable := true
      latencyMs
      mintUrl := url
      mintTime := match d.time with
        | some v => if v = 0 then none else some v
        | none => none
      localTime := some localTime
      clockDriftSec := match d.time with
        | some v => if v = 0 then none else some (localTime - v)
        | none => none
      version := strOrNull d.version
      name := strOrNull d.name
      error := none }
  | .error msg =>
    { reachable := false
      latencyMs := (stop : Int) - (start : Int)
      mintUrl := url
      mintTime := none
      localTime := none
      clockDriftSec := none
      version := none
      name := none
      error := some msg }

-- ---------------------------------------------------------------------------
-- getOsStats
-- ---------------------------------------------------------------------------

/-- The host reads performed by `getOsStats`: `os.*` values plus the
outcomes of the two `try` blocks (disk stats via `df`, CPU lifetime
average).  `disk` is `(totalBytes, freeBytes)` when the shell command
succeeded, `none` when it threw; `cpu` likewise for the CPU
computation.  Derived percentages are in ℚ (the `toFixed(1)` float
rounding is abstracted away). -/
structure OsEnv where
  hostname : String
  platform : String
  arch : String
  release : String
  cpuCount : Nat
  cpuModel : String
  disk : Option (Nat × Nat)
  cpu : Option ℚ
  loadAvg1 : ℚ
  loadAvg5 : ℚ
  loadAvg15 : ℚ
  totalMem : Nat
  freeMem : Nat
  uptime : ℚ
deriving DecidableEq, Repr

/-- The object `getOsStats` returns.  `nodeVersion`/`pid` (process
constants) are not modelled. -/
structure OsStats where
  hostname : String
  platform : String
  arch : String
  release : String
  cpuCount : Nat
  cpuModel : String
  cpuPercent : Option ℚ
  loadAvg1 : ℚ
  loadAvg5 : ℚ
  loadAvg15 : ℚ
  totalMemory : Nat
  freeMemory : Nat
  usedMemoryPercent : ℚ
  diskTotal : Option Nat
  diskFree : Option Nat
  diskUsedPercent : Option ℚ
  uptime : ℚ
deriving DecidableEq, Repr

/-- The `getOsStats()` body.  Disk failure leaves `diskTotal`/`diskFree`/
`diskUsedPercent` at `null`; `diskUsedPercent` is additionally computed
only when `diskTotal && diskFree` is truthy (both nonzero).  CPU
failure leaves `cpuPercent` at `null`. -/
def getOsStats (env : OsEnv) : OsStats :=
  let diskTotal := env.disk.map Prod.fst
  let diskFree := env.disk.map Prod.snd
  let diskUsedPercent : Option ℚ :=
    match env.disk with
    | some (t, f) =>
      if t ≠ 0 ∧ f ≠ 0 then some ((1 - (f : ℚ) / (t : ℚ)) * 100) else none
    | none => none
  { hostname := env.hostname
    platform := env.platform
    arch := env.arch
    release := env.release
    cpuCount := env.cpuCount
    cpuModel := env.cpuModel
    cpuPercent := env.cpu
    loadAvg1 := env.loadAvg1
    loadAvg5 := env.loadAvg5
    loadAvg15 := env.loadAvg15
    totalMemory := env.totalMem
    freeMemory := env.freeMem
    usedMemoryPercent := (1 - (env.freeMem : ℚ) / (env.totalMem : ℚ)) * 100
    diskTotal
    diskFree
    diskUsedPercent
    uptime := env.uptime }

-- ---------------------------------------------------------------------------
-- getDbStats
-- ---------------------------------------------------------------------------

/-- Outcomes of the fixed allow-list of sqlite queries `getDbStats`
issues (each `sqliteQuery` returns `null` on any error — missing table,
timeout, unparsable output — and `sqliteGroupBy` returns `{}`). -/
structure DbQueryEnv where
  mintTotal : Option Nat
  mintStates : List (String × Nat)
  mintLast24h : Option Nat
  mintLast1h : Option Nat
  meltTotal : Option Nat
  meltStates : List (String × Nat)
  meltLast24h : Option Nat
  meltLast1h : Option Nat
  proofsTotal : Option Nat
  outputsCount : Option Nat
  promisesCount : Option Nat
  keysetsTotal : Option Nat
  keysetsActive : Option Nat
deriving DecidableEq, Repr

/-- The environment `getDbStats` runs against: the configured
`CONFIG.mintDbPath` (`""` = unconfigured), `fs.existsSync(path)`,
`hasSqliteCli()`, and the query outcomes. -/
structure DbEnv where
  mintDbPath : String
  fileExists : Bool
  hasSqliteCli : Bool
  queries : DbQueryEnv
deriving DecidableEq, Repr

/-- Per-quote-table stats in the `tables` object. -/
structure QuoteTableStats where
  total : Option Nat
  byState : List (String × Nat)
  last24h : Option Nat
  last1h : Option Nat
deriving DecidableEq, Repr

/-- The `tables` object of a successful `getDbStats` result
(`proofs.total`, `outputs.total`, `keysets.total/active` flattened;
the constant `note` strings are omitted). -/
structure DbTables where
  mintQuotes : QuoteTableStats
  meltQuotes : QuoteTableStats
  proofsTotal : Option Nat
  outputsTotal : Option Nat
  keysetsTotal : Option Nat
  keysetsActive : Option Nat
deriving DecidableEq, Repr

/-- The `getDbStats` result: either `{available:false, reason}` or the full
stats object. -/
structure DbStatsResult where
  available : Bool
  reason : Option String
  dbPath : Option String
  tables : Option DbTables
  requestsLast24h : Option Nat
  requestsLast1h : Option Nat
  timestamp : Option Nat
deriving DecidableEq, Repr

/-- The `getDbStats()` body: three guard clauses each yielding an explicit
`{available:false, reason}`; otherwise the query pass, with the
outputs/promises table-name fallback
(`let outputsTotal = sqliteQuery(p, "... FROM outputs");
if (outputsTotal === null) outputsTotal = sqliteQuery(p, "... FROM promises");`).
`now` is `Math.floor(Date.now()/1000)`. -/
def getDbStats (env : DbEnv) (now : Nat) : DbStatsResult :=
  if env.mintDbPath = "" then
    { available := false
      reason := some "MINT_DB_PATH not configured. Set it to the path of your cashu.db file."
      dbPath := none, tables := none
      requestsLast24h := none, requestsLast1h := none, timestamp := none }
  else if !env.fileExists then
    { available := false
      reason := some ("Database file not found: " ++ env.mintDbPath)
      dbPath := none, tables := none
      requestsLast24h := none, requestsLast1h := none, timestamp := none }
  else if !env.hasSqliteCli then
    { available := false
      reason := some "sqlite3 CLI not found. Install sqlite3 (e.g., apt install sqlite3)."
      dbPath := none, tables := none
      requestsLast24h := none, requestsLast1h := none, timestamp := none }
  else
    let q := env.queries
    let outputsTotal := match q.outputsCount with
      | none => q.promisesCount
      | some v => some v
    { available := true
      reason := none
      dbPath := some env.mintDbPath
      tables := some
        { mintQuotes :=
            { total := q.mintTotal, byState := q.mintStates
              last24h := q.mintLast24h, last1h := q.mintLast1h }
          meltQuotes :=
            { total := q.meltTotal, byState := q.meltStates
              last24h := q.meltLast24h, last1h := q.meltLast1h }
          proofsTotal := q.proofsTotal
          outputsTotal
          keysetsTotal := q.keysetsTotal
          keysetsActive := q.keysetsActive }
      requestsLast24h := some (q.mintLast24h.getD 0 + q.meltLast24h.getD 0)
      requestsLast1h := some (q.mintLast1h.getD 0 + q.meltLast1h.getD 0)
      timestamp := some now }

-- ---------------------------------------------------------------------------
-- GET /api/admin/dashboard
-- ---------------------------------------------------------------------------

/-- One keyset record of the remote `/v1/keysets` payload. -/
structure KeysetInfo where
  id : String
  active : Bool
deriving DecidableEq, Repr

/-- Remote `/v1/keysets` payload. -/
structure KeysetsPayload where
  keysets : List KeysetInfo
deriving DecidableEq, Repr

/-- Remote `/v1/keys` payload (forwarded opaquely by the dashboard). -/
structure KeysPayload where
  keysets : List String
deriving DecidableEq, Repr

/-- The `config` echo in the dashboard response
(`dbConfigured: !!CONFIG.mintDbPath`). -/
structure DashboardConfig where
  mintUrl : String
  authType : String
  dbConfigured : Bool
deriving DecidableEq, Repr

/-- The dashboard response: every top-level key is a field, so a value
of this type is structurally complete by construction. -/
structure DashboardResponse where
  mintInfo : Option InfoPayload
  keys : Option KeysPayload
  keysets : Option KeysetsPayload
  monitoring : MonitoringData
  os : OsStats
  db : DbStatsResult
  config : DashboardConfig
deriving DecidableEq, Repr

/-- The write `mintUp.set(info.data ? 1 : 0)` — the value written to the
`cashu_mint_up` gauge by the dashboard handler. -/
def mintUpValue (info : Option InfoPayload) : Nat :=
  if info.isSome then 1 else 0

/-- What the dashboard handler produces: the response plus the two
gauge writes it performs. -/
structure DashboardResult where
  response : DashboardResponse
  mintUpSet : Nat
  activeKeysetsSet : Nat
deriving DecidableEq, Repr

/-- The `GET /api/admin/dashboard` handler body.  Each of the three remote
fetches is independently caught to `{data: null}` (hence the `Option`
inputs); OS and DB collection take their environments.  The handler is
a total function: no failure combination escapes it. -/
def dashboardHandler (mintUrl authType : String)
    (info : Option InfoPayload) (keys : Option KeysPayload)
    (keysets : Option KeysetsPayload) (mon : MonitoringData)
    (osEnv : OsEnv) (dbEnv : DbEnv) (now : Nat) : DashboardResult :=
  let up := mintUpValue info
  let activeKeysetsCount := match keysets with
    | some k => (k.keysets.filter fun x => x.active).length
    | none => 0
  { response :=
      { mintInfo := info
        keys := keys
        keysets := keysets
        monitoring := mon
        os := getOsStats osEnv
        db := getDbStats dbEnv now
        config :=
          { mintUrl := mintUrl
            authType := authType
            dbConfigured := dbEnv.mintDbPath ≠ "" } }
    mintUpSet := up
    activeKeysetsSet := activeKeysetsCount }

-- ---------------------------------------------------------------------------
-- GET /metrics and the cashu_mint_up gauge
-- ---------------------------------------------------------------------------

/-- The server events that touch or render the `cashu_mint_up` gauge.
`dashboard infoResult` is a `GET /api/admin/dashboard` request whose
`/v1/info` fetch produced `infoResult` (it runs `mintUp.set(...)`);
`scrape remoteUp` is a `GET /metrics` request, tagged with whether the
remote mint is actually reachable at scrape time (the handler body —
`getOsStats(); register.metrics()` — never reads that fact). -/
inductive MetricsEvent where
  | dashboard (infoResult : Option InfoPayload)
  | scrape (remoteUp : Bool)
deriving DecidableEq, Repr

/-- Gauge-register transition: only a dashboard request writes
`cashu_mint_up`; a `none` gauge state is a never-set gauge (rendered
with no sample by prom-client). -/
def gaugeStep (g : Option Nat) : MetricsEvent → Option Nat
  | .dashboard info => some (mintUpValue info)
  | .scrape _ => g

/-- Run a trace of events from gauge state `g`; emit, for every scrape,
the pair (actual remote reachability at scrape time, `cashu_mint_up`
sample rendered in the scrape output). -/
def scrapeOutputs (g : Option Nat) : List MetricsEvent → List (Bool × Option Nat)
  | [] => []
  | .dashboard info :: rest => scrapeOutputs (some (mintUpValue info)) rest
  | .scrape up :: rest => (up, g) :: scrapeOutputs g rest

-- ===========================================================================
-- Theorems
-- ===========================================================================

theorem simulateHandler_requests_foldl (m : MonitoringData) (ys : List Activity) :
    (ys.foldl simulateHandler m).requests =
      ys.foldl (appendCapped MAX_ACTIVITY_ENTRIES) m.requests := by
  induction ys generalizing m with
  | nil => rfl
  | cons y ys ih => simp only [List.foldl_cons]; rw [ih]; rfl

/-- C2: for every sequence of N appends, the log buffer (capacity 2000,
appended via `addLog`) and the activity buffer (capacity 1000, appended
via the simulate endpoint) afterwards contain exactly `min N C` entries,
and those entries are the C most recently appended ones in insertion
order (= the suffix `xs.drop (xs.length - C)` of the append sequence). -/
theorem ring_buffer_bound (clients : List WsClient) (xs : List LogEntry)
    (ys : List Activity) (dbS sysS : List (String × String)) :
    (xs.foldl (fun b e => (addLog b clients e).1) [] =
        xs.drop (xs.length - MAX_LOG_ENTRIES) ∧
      (xs.foldl (fun b e => (addLog b clients e).1) []).length =
        min xs.length MAX_LOG_ENTRIES) ∧
    ((ys.foldl simulateHandler ⟨[], dbS, sysS⟩).requests =
        ys.drop (ys.length - MAX_ACTIVITY_ENTRIES) ∧
      (ys.foldl simulateHandler ⟨[], dbS, sysS⟩).requests.length =
        min ys.length MAX_ACTIVITY_ENTRIES) := by
  have hlog : xs.foldl (fun b e => (addLog b clients e).1) [] =
      xs.foldl (appendCapped MAX_LOG_ENTRIES) [] := rfl
  have hact := simulateHandler_requests_foldl ⟨[], dbS, sysS⟩ ys
  refine ⟨⟨?_, ?_⟩, ?_, ?_⟩
  · rw [hlog, appendCapped_foldl MAX_LOG_ENTRIES (by decide)]
  · rw [hlog, appendCapped_foldl_length MAX_LOG_ENTRIES (by decide)]
  · rw [hact, appendCapped_foldl MAX_ACTIVITY_ENTRIES (by decide)]
  · rw [hact, appendCapped_foldl_length MAX_ACTIVITY_ENTRIES (by decide)]

theorem broadcastLog_cons (c : WsClient) (cs : List WsClient) (e : LogEntry) :
    broadcastLog (c :: cs) e =
      (if c.readyState = WS_OPEN then [(c.id, WsMsg.log e)] else []) ++
        broadcastLog cs e := by
  by_cases h : c.readyState = WS_OPEN <;>
    simp [broadcastLog, List.filterMap_cons, h]

theorem broadcastLog_mem (clients : List WsClient) (e : LogEntry)
    (s : Nat × WsMsg) (hs : s ∈ broadcastLog clients e) :
    s.1 ∈ clients.map WsClient.id ∧ s.2 = WsMsg.log e := by
  simp only [broadcastLog, List.mem_filterMap] at hs
  obtain ⟨c, hc, hf⟩ := hs
  by_cases h : c.readyState = WS_OPEN
  · rw [if_pos h] at hf
    cases hf
    exact ⟨List.mem_map_of_mem WsClient.id hc, rfl⟩
  · rw [if_neg h] at hf
    cases hf

theorem broadcastLog_filter_not_mem (clients : List WsClient) (e : LogEntry)
    (x : Nat) (hx : x ∉ clients.map WsClient.id) :
    (broadcastLog clients e).filter (fun s => s.1 == x) = [] := by
  refine List.filter_eq_nil_iff.mpr fun s hs => ?_
  have := (broadcastLog_mem clients e s hs).1
  simp only [beq_iff_eq]
  intro he
  exact hx (he ▸ this)

theorem broadcastLog_fanout (clients : List WsClient) (e : LogEntry)
    (c : WsClient) (hnd : (clients.map WsClient.id).Nodup) (hc : c ∈ clients)
    (hopen : c.readyState = WS_OPEN) :
    (broadcastLog clients e).filter (fun s => s.1 == c.id) =
      [(c.id, WsMsg.log e)] := by
  induction clients with
  | nil => cases hc
  | cons d ds ih =>
    simp only [List.map_cons, List.nodup_cons] at hnd
    obtain ⟨hdnotin, hndds⟩ := hnd
    rw [broadcastLog_cons, List.filter_append]
    rcases List.mem_cons.mp hc with hcd | hcds
    · subst hcd
      rw [if_pos hopen, broadcastLog_filter_not_mem ds e c.id hdnotin]
      simp
    · have hdc : (d.id == c.id) = false := by
        simp only [beq_eq_false_iff_ne, ne_eq]
        intro h
        exact hdnotin (h ▸ List.mem_map_of_mem WsClient.id hcds)
      have hrest := ih hndds hcds
      by_cases hd : d.readyState = WS_OPEN
      · rw [if_pos hd, hrest]
        simp [hdc]
      · rw [if_neg hd, hrest]
        simp

/-- C5: an `addLog` call performed while clients are connected sends, to
each client whose WebSocket is in the OPEN state, exactly one message —
of type `log`, carrying the appended entry — and these sends are part of
the `addLog` call itself (not deferred to the 5-second stats timer). -/
theorem log_fanout (buf : List LogEntry) (clients : List WsClient)
    (e : LogEntry) (c : WsClient) (hnd : (clients.map WsClient.id).Nodup)
    (hc : c ∈ clients) (hopen : c.readyState = WS_OPEN) :
    ((addLog buf clients e).2.filter fun s => s.1 == c.id) =
      [(c.id, WsMsg.log e)] :=
  broadcastLog_fanout clients e c hnd hc hopen

/-- C5 witness: two OPEN subscribers; the first one receives exactly one
`log` message carrying the appended entry. -/
theorem log_fanout_witness :
    ((addLog [] [WsClient.mk 1 1, WsClient.mk 2 1]
        (mkLogEntry "1-a" "t" "info" "admin" "m" none)).2.filter
      fun s => s.1 == (WsClient.mk 1 1).id) =
      [((WsClient.mk 1 1).id,
        WsMsg.log (mkLogEntry "1-a" "t" "info" "admin" "m" none))] :=
  log_fanout [] [WsClient.mk 1 1, WsClient.mk 2 1]
    (mkLogEntry "1-a" "t" "info" "admin" "m" none) (WsClient.mk 1 1)
    (by decide) (by decide) (by decide)

/-- C6: on any failure of the remote probe, the health handler responds
(never throws) with `reachable = false`, a nonnegative `latencyMs`
measuring the time up to the failure point, and none of the other
health fields populated. -/
theorem health_failure_soft (url msg : String) (start stop : Nat)
    (h : start ≤ stop) :
    (healthHandler url start stop (Except.error msg)).reachable = false ∧
    0 ≤ (healthHandler url start stop (Except.error msg)).latencyMs ∧
    (healthHandler url start stop (Except.error msg)).latencyMs =
      (stop : Int) - (start : Int) ∧
    (healthHandler url start stop (Except.error msg)).mintTime = none ∧
    (healthHandler url start stop (Except.error msg)).localTime = none ∧
    (healthHandler url start stop (Except.error msg)).clockDriftSec = none ∧
    (healthHandler url start stop (Except.error msg)).version = none ∧
    (healthHandler url start stop (Except.error msg)).name = none := by
  refine ⟨rfl, ?_, rfl, rfl, rfl, rfl, rfl, rfl⟩
  simp only [healthHandler]
  omega

/-- C6 witness: a probe that fails 5 ms after it started. -/
theorem health_failure_soft_witness :
    (0 : Nat) ≤ 5 ∧
    ((healthHandler "u" 0 5 (Except.error "connection refused")).reachable = false ∧
     0 ≤ (healthHandler "u" 0 5 (Except.error "connection refused")).latencyMs ∧
     (healthHandler "u" 0 5 (Except.error "connection refused")).latencyMs =
       (5 : Int) - (0 : Int) ∧
     (healthHandler "u" 0 5 (Except.error "connection refused")).mintTime = none ∧
     (healthHandler "u" 0 5 (Except.error "connection refused")).localTime = none ∧
     (healthHandler "u" 0 5 (Except.error "connection refused")).clockDriftSec = none ∧
     (healthHandler "u" 0 5 (Except.error "connection refused")).version = none ∧
     (healthHandler "u" 0 5 (Except.error "connection refused")).name = none) :=
  ⟨by decide, health_failure_soft "u" "connection refused" 0 5 (by decide)⟩

/-- C7: in `getDbStats`, when the count query against the primary table
name `outputs` yields null but the query against the alias `promises`
yields a count, the reported outputs total is the alias count; when both
yield null, the reported total is null and the collection still
succeeds (`available` stays true, no error is raised). -/
theorem db_fallback_naming (env : DbEnv) (now n : Nat)
    (hconf : env.mintDbPath ≠ "") (hfile : env.fileExists = true)
    (hcli : env.hasSqliteCli = true)
    (hprimary : env.queries.outputsCount = none) :
    (getDbStats env now).available = true ∧
    (env.queries.promisesCount = some n →
      (getDbStats env now).tables.map DbTables.outputsTotal = some (some n)) ∧
    (env.queries.promisesCount = none →
      (getDbStats env now).tables.map DbTables.outputsTotal = some none) := by
  refine ⟨?_, ?_, ?_⟩ <;>
    simp [getDbStats, hconf, hfile, hcli, hprimary]

/-- C7 witness: a configured, readable database whose schema has a
`promises` table (5 rows) but no `outputs` table. -/
theorem db_fallback_naming_witness :
    let env : DbEnv :=
      { mintDbPath := "/tmp/cashu.db", fileExists := true, hasSqliteCli := true
        queries :=
          { mintTotal := some 1, mintStates := [], mintLast24h := none
            mintLast1h := none, meltTotal := some 2, meltStates := []
            meltLast24h := none, meltLast1h := none, proofsTotal := some 3
            outputsCount := none, promisesCount := some 5
            keysetsTotal := some 1, keysetsActive := some 1 } }
    (getDbStats env 0).available = true ∧
    (getDbStats env 0).tables.map DbTables.outputsTotal = some (some 5) := by
  intro env
  have h := db_fallback_naming env 0 5 (by decide) rfl rfl rfl
  exact ⟨h.1, h.2.1 rfl⟩

/-- C8 counterexample: a remote info response that carries the unix
timestamp 0 (present, but falsy in JS).  The claim prescribes
`clockDriftSec = localUnixSec - remoteUnixSec = 1 - 0 = 1`, but the
handler reports `null`. -/
theorem drift_zero_timestamp_cex :
    (healthHandler "u" 0 1000 (Except.ok ⟨none, none, some 0⟩)).clockDriftSec
        = none ∧
    (healthHandler "u" 0 1000 (Except.ok ⟨none, none, some 0⟩)).localTime
        = some 1 ∧
    (none : Option Int) ≠ some ((1 : Int) - (0 : Int)) := by
  refine ⟨rfl, rfl, by decide⟩

/-- C8 (amended): when the remote info response carries a NONZERO unix
timestamp `t`, the health handler reports
`clockDriftSec = localUnixSec - t` (local clock ahead ⇒ positive); when
the timestamp is absent — or equal to 0, which JS truthiness treats as
absent — it reports null. -/
theorem drift_computation (url : String) (start stop : Nat)
    (nm ver : Option String) (t : Int) (ht : t ≠ 0) :
    (healthHandler url start stop (Except.ok ⟨nm, ver, some t⟩)).clockDriftSec
        = some (((stop / 1000 : Nat) : Int) - t) ∧
    (healthHandler url start stop (Except.ok ⟨nm, ver, none⟩)).clockDriftSec
        = none ∧
    (healthHandler url start stop (Except.ok ⟨nm, ver, some 0⟩)).clockDriftSec
        = none := by
  refine ⟨?_, rfl, rfl⟩
  simp [healthHandler, ht]

/-- C8 witness: local clock reads 46 s, remote reports 1 = 46 − 45, so
the computed drift is 45 s. -/
theorem drift_computation_witness :
    (1 : Int) ≠ 0 ∧
    ((healthHandler "u" 0 46000 (Except.ok ⟨none, none, some 1⟩)).clockDriftSec
        = some (((46000 / 1000 : Nat) : Int) - 1) ∧
     (healthHandler "u" 0 46000 (Except.ok ⟨none, none, none⟩)).clockDriftSec
        = none ∧
     (healthHandler "u" 0 46000 (Except.ok ⟨none, none, some 0⟩)).clockDriftSec
        = none) :=
  ⟨by decide, drift_computation "u" 0 46000 none none 1 (by decide)⟩

/-- C9 counterexample: `POST /api/admin/logs/clear` responds with
`{success:true}` but the log buffer is NOT empty when the response is
sent — the handler itself logs a "Log buffer cleared" notice into the
buffer it just cleared. -/
theorem logs_clear_not_empty_cex :
    (logsClearHandler [] "1-aaaa" "t1").1.1 =
      [mkLogEntry "1-aaaa" "t1" "info" "admin" "Log buffer cleared" none] ∧
    (logsClearHandler [] "1-aaaa" "t1").1.1 ≠ [] ∧
    (logsClearHandler [] "1-aaaa" "t1").2.success = true := by
  refine ⟨rfl, by decide, rfl⟩

/-- C9 (amended): both reset endpoints return `{success:true}`;
`POST /api/admin/monitoring/clear` leaves the activity buffer empty at
response time, while `POST /api/admin/logs/clear` leaves the log buffer
holding exactly the single "Log buffer cleared" notice entry it appends
after clearing. -/
theorem clear_endpoints_state (mon : MonitoringData) (logBuf : List LogEntry)
    (clients : List WsClient) (id1 ts1 id2 ts2 : String) :
    (logsClearHandler clients id1 ts1).1.1 =
      [mkLogEntry id1 ts1 "info" "admin" "Log buffer cleared" none] ∧
    (logsClearHandler clients id1 ts1).2.success = true ∧
    (monitoringClearHandler mon logBuf clients id2 ts2).1.requests = [] ∧
    (monitoringClearHandler mon logBuf clients id2 ts2).1.dbStats = [] ∧
    (monitoringClearHandler mon logBuf clients id2 ts2).2.2.success = true :=
  ⟨rfl, rfl, rfl, rfl, rfl⟩

/-- C1: for every combination of source failures (each remote fetch
independently failed to `null`, database unconfigured / file missing /
sqlite3 CLI absent, OS disk stats unavailable) the dashboard handler is
a total function whose response carries every top-level key: failed
remote fetches pass through as `null`, a failed database source yields
`{available:false, reason}` and no tables, a failed disk read yields
null disk fields — and every other field stays populated from its
source. -/
theorem buildSnapshot_total (mintUrl authType : String)
    (info : Option InfoPayload) (keys : Option KeysPayload)
    (keysets : Option KeysetsPayload) (mon : MonitoringData)
    (osEnv : OsEnv) (dbEnv : DbEnv) (now : Nat) :
    (dashboardHandler mintUrl authType info keys keysets mon osEnv dbEnv now).response.mintInfo = info ∧
    (dashboardHandler mintUrl authType info keys keysets mon osEnv dbEnv now).response.keys = keys ∧
    (dashboardHandler mintUrl authType info keys keysets mon osEnv dbEnv now).response.keysets = keysets ∧
    (dashboardHandler mintUrl authType info keys keysets mon osEnv dbEnv now).response.monitoring = mon ∧
    (dashboardHandler mintUrl authType info keys keysets mon osEnv dbEnv now).response.db.available =
      (decide (dbEnv.mintDbPath ≠ "") && dbEnv.fileExists && dbEnv.hasSqliteCli) ∧
    (dashboardHandler mintUrl authType info keys keysets mon osEnv dbEnv now).response.db.reason.isSome =
      !(decide (dbEnv.mintDbPath ≠ "") && dbEnv.fileExists && dbEnv.hasSqliteCli) ∧
    (dashboardHandler mintUrl authType info keys keysets mon osEnv dbEnv now).response.db.tables.isSome =
      (decide (dbEnv.mintDbPath ≠ "") && dbEnv.fileExists && dbEnv.hasSqliteCli) ∧
    (dashboardHandler mintUrl authType info keys keysets mon osEnv dbEnv now).response.os.diskTotal =
      osEnv.disk.map Prod.fst ∧
    (dashboardHandler mintUrl authType info keys keysets mon osEnv dbEnv now).response.os.diskFree =
      osEnv.disk.map Prod.snd ∧
    (dashboardHandler mintUrl authType info keys keysets mon osEnv dbEnv now).response.os.cpuPercent =
      osEnv.cpu ∧
    (dashboardHandler mintUrl authType info keys keysets mon osEnv dbEnv now).response.os.hostname =
      osEnv.hostname ∧
    (dashboardHandler mintUrl authType info keys keysets mon osEnv dbEnv now).response.os.totalMemory =
      osEnv.totalMem ∧
    (dashboardHandler mintUrl authType info keys keysets mon osEnv dbEnv now).response.config.mintUrl =
      mintUrl ∧
    (dashboardHandler mintUrl authType info keys keysets mon osEnv dbEnv now).response.config.authType =
      authType ∧
    (dashboardHandler mintUrl authType info keys keysets mon osEnv dbEnv now).response.config.dbConfigured =
      decide (dbEnv.mintDbPath ≠ "") := by
  refine ⟨rfl, rfl, rfl, rfl, ?_, ?_, ?_, rfl, rfl, rfl, rfl, rfl, rfl, rfl, rfl⟩ <;>
    by_cases h1 : dbEnv.mintDbPath = "" <;>
      by_cases h2 : dbEnv.fileExists <;>
        by_cases h3 : dbEnv.hasSqliteCli <;>
          simp [dashboardHandler, getDbStats, h1, h2, h3]

/-- C4 counterexample: a dashboard request while the mint is up sets the
`cashu_mint_up` gauge to 1; a later `GET /metrics` scrape while the
mint is unreachable still renders 1 — the scrape handler only refreshes
OS gauges and never probes the remote, so the claim that every scrape
reflects reachability at scrape time is false. -/
theorem scrape_stale_mint_up_cex :
    scrapeOutputs none
        [MetricsEvent.dashboard (some ⟨none, none, none⟩),
         MetricsEvent.scrape false] = [(false, some 1)] ∧
    (some 1 : Option Nat) ≠ some 0 := by
  refine ⟨rfl, by decide⟩

/-- C4 (amended): the `cashu_mint_up` value rendered by a scrape is the
value written by the most recent preceding dashboard request (1 if its
`/v1/info` fetch succeeded, 0 if it failed), or the initial gauge state
if no dashboard request preceded; it does not depend on the remote
reachability at scrape time. -/
theorem scrape_renders_last_dashboard (g : Option Nat)
    (pre : List MetricsEvent) (up : Bool) (post : List MetricsEvent) :
    scrapeOutputs g (pre ++ MetricsEvent.scrape up :: post) =
      scrapeOutputs g pre ++
        (up, pre.foldl gaugeStep g) :: scrapeOutputs (pre.foldl gaugeStep g) post := by
  induction pre generalizing g with
  | nil => rfl
  | cons e pre ih =>
    cases e with
    | dashboard info =>
      simp only [List.cons_append, scrapeOutputs, List.foldl_cons, gaugeStep]
      exact ih _
    | scrape u =>
      simp only [List.cons_append, scrapeOutputs, List.foldl_cons, gaugeStep,
        List.append_eq]
      rw [ih]

/-- C10: `GET /api/admin/activity` truncates to the last `limit`
entries BEFORE applying the `type` filter, so whenever a matching
record sits earlier than the last `limit` entries, the response holds
strictly fewer matching records than the buffer does; and the returned
`total` is always the length of the returned list, not the buffer
size. -/
theorem activity_truncate_before_filter (mon : MonitoringData) (lim : Nat)
    (t : String) (hlim : 0 < lim) (ht : t ≠ "")
    (hmiss : ∃ a ∈ mon.requests.take (mon.requests.length - lim), a.type = t) :
    (activityHandler mon lim (some t)).total =
      (activityHandler mon lim (some t)).activities.length ∧
    (activityHandler mon lim (some t)).activities.length <
      (mon.requests.filter fun a => a.type == t).length := by
  obtain ⟨a, ha, hat⟩ := hmiss
  refine ⟨rfl, ?_⟩
  have hacts : (activityHandler mon lim (some t)).activities =
      (mon.requests.drop (mon.requests.length - lim)).filter
        (fun x => x.type == t) := by
    simp [activityHandler, ht, jsSliceLast_of_pos lim hlim]
  have hfl : (mon.requests.filter fun x => x.type == t) =
      (mon.requests.take (mon.requests.length - lim)).filter
          (fun x => x.type == t) ++
        (mon.requests.drop (mon.requests.length - lim)).filter
          (fun x => x.type == t) := by
    conv_lhs => rw [← List.take_append_drop (mon.requests.length - lim)
      mon.requests]
    rw [List.filter_append]
  have hpos : 0 < ((mon.requests.take (mon.requests.length - lim)).filter
      (fun x => x.type == t)).length := by
    refine List.length_pos.mpr (List.ne_nil_of_mem (List.mem_filter.mpr ⟨ha, ?_⟩))
    simp [hat]
  rw [hacts, hfl, List.length_append]
  omega

/-- C10 witness: buffer `[mint, swap, swap]`, `limit = 2`,
`type = mint`: the matching record is truncated away, so the response
holds 0 matches while the buffer holds 1; `total` is 0, not 3. -/
theorem activity_truncate_before_filter_witness :
    (0 : Nat) < 2 ∧ "mint" ≠ "" ∧
    (∃ a ∈ (MonitoringData.mk
        [Activity.mk "1" "mint" 1 0 "127.0.0.1",
         Activity.mk "2" "swap" 2 1 "127.0.0.1",
         Activity.mk "3" "swap" 3 2 "127.0.0.1"] [] []).requests.take
        ((MonitoringData.mk
        [Activity.mk "1" "mint" 1 0 "127.0.0.1",
         Activity.mk "2" "swap" 2 1 "127.0.0.1",
         Activity.mk "3" "swap" 3 2 "127.0.0.1"] [] []).requests.length - 2),
      a.type = "mint") ∧
    ((activityHandler (MonitoringData.mk
        [Activity.mk "1" "mint" 1 0 "127.0.0.1",
         Activity.mk "2" "swap" 2 1 "127.0.0.1",
         Activity.mk "3" "swap" 3 2 "127.0.0.1"] [] []) 2 (some "mint")).total =
      (activityHandler (MonitoringData.mk
        [Activity.mk "1" "mint" 1 0 "127.0.0.1",
         Activity.mk "2" "swap" 2 1 "127.0.0.1",
         Activity.mk "3" "swap" 3 2 "127.0.0.1"] [] []) 2
          (some "mint")).activities.length ∧
     (activityHandler (MonitoringData.mk
        [Activity.mk "1" "mint" 1 0 "127.0.0.1",
         Activity.mk "2" "swap" 2 1 "127.0.0.1",
         Activity.mk "3" "swap" 3 2 "127.0.0.1"] [] []) 2
          (some "mint")).activities.length <
      ((MonitoringData.mk
        [Activity.mk "1" "mint" 1 0 "127.0.0.1",
         Activity.mk "2" "swap" 2 1 "127.0.0.1",
         Activity.mk "3" "swap" 3 2 "127.0.0.1"] [] []).requests.filter
        fun a => a.type == "mint").length) :=
  ⟨by decide, by decide, by decide,
    activity_truncate_before_filter _ 2 "mint" (by decide) (by decide)
      (by decide)⟩

-- ---------------------------------------------------------------------------
-- C3: cursor-based log pagination
-- ---------------------------------------------------------------------------

theorem jsStrLtAux_irrefl (l : List Char) : jsStrLtAux l l = false := by
  induction l with
  | nil => rfl
  | cons a as ih => simp [jsStrLtAux, ih]

theorem jsStrLt_irrefl (s : String) : jsStrLt s s = false :=
  jsStrLtAux_irrefl s.data

theorem jsStrLtAux_asymm (l m : List Char) (h : jsStrLtAux l m = true) :
    jsStrLtAux m l = false := by
  induction l generalizing m with
  | nil =>
    cases m with
    | nil => simp [jsStrLtAux] at h
    | cons b bs => rfl
  | cons a as ih =>
    cases m with
    | nil => simp [jsStrLtAux] at h
    | cons b bs =>
      simp only [jsStrLtAux] at h ⊢
      by_cases hab : a.toNat < b.toNat
      · simp [hab, Nat.lt_asymm hab]
      · by_cases hba : b.toNat < a.toNat
        · simp [hab, hba] at h
        · simp only [hab, hba, if_false] at h ⊢
          exact ih bs h

theorem jsStrLt_asymm {s t : String} (h : jsStrLt s t = true) :
    jsStrLt t s = false :=
  jsStrLtAux_asymm _ _ h

theorem jsStrLt_ne {s t : String} (h : jsStrLt s t = true) : s ≠ t := by
  intro he
  subst he
  simp [jsStrLt_irrefl] at h

theorem dropWhile_append_of_forall {p : α → Bool} (l1 l2 : List α)
    (h : ∀ a ∈ l1, p a = true) :
    (l1 ++ l2).dropWhile p = l2.dropWhile p := by
  induction l1 with
  | nil => rfl
  | cons a as ih =>
    rw [List.cons_append, List.dropWhile_cons,
      if_pos (h a (List.mem_cons_self a as))]
    exact ih fun x hx => h x (List.mem_cons_of_mem a hx)

/-- C3 counterexample: two entries appended in the same millisecond, the
first with random suffix `zz`, the second with `aa`.  Ids are compared
with JS string `>`, which orders the later entry below the cursor, so a
query with `since` = the id of the first entry returns nothing although one
entry was appended strictly after it — a gap. -/
theorem cursor_continuity_cex :
    (logsHandler
        [mkLogEntry "100-zz" "t1" "info" "admin" "m1" none,
         mkLogEntry "100-aa" "t2" "info" "admin" "m2" none]
        none none (some "100-zz") 200).logs = [] ∧
    suffixAfterId
        [mkLogEntry "100-zz" "t1" "info" "admin" "m1" none,
         mkLogEntry "100-aa" "t2" "info" "admin" "m2" none] "100-zz" =
      [mkLogEntry "100-aa" "t2" "info" "admin" "m2" none] ∧
    ([] : List LogEntry) ≠
      [mkLogEntry "100-aa" "t2" "info" "admin" "m2" none] := by
  refine ⟨by decide, by decide, by decide⟩

/-- C3 (amended): the query with `since = X` returns exactly the entries
appended strictly after the entry with id X PROVIDED the buffer ids
are strictly increasing in insertion order under JS string comparison
(which the id scheme only guarantees for appends in distinct
milliseconds), X is a nonempty id occurring in the buffer, and at most
`limit` entries follow it; same-millisecond appends can violate the
ordering hypothesis and then the result has gaps. -/
theorem cursor_continuity (pre post : List LogEntry) (ex : LogEntry)
    (lim : Nat)
    (hsorted : (pre ++ ex :: post).Pairwise fun a b => jsStrLt a.id b.id = true)
    (hid : ex.id ≠ "") (hlen : post.length ≤ lim) (hlim : 0 < lim) :
    (logsHandler (pre ++ ex :: post) none none (some ex.id) lim).logs = post ∧
    suffixAfterId (pre ++ ex :: post) ex.id = post := by
  rw [List.pairwise_append] at hsorted
  obtain ⟨hpre, hexpost, hcross⟩ := hsorted
  rw [List.pairwise_cons] at hexpost
  obtain ⟨hexp, hpost⟩ := hexpost
  have hprelt : ∀ a ∈ pre, jsStrLt a.id ex.id = true := fun a ha =>
    hcross a ha ex (List.mem_cons_self ex post)
  constructor
  · have hfilter : (pre ++ ex :: post).filter (fun l => jsStrLt ex.id l.id)
        = post := by
      rw [List.filter_append, List.filter_cons]
      have h1 : (pre.filter fun l => jsStrLt ex.id l.id) = [] :=
        List.filter_eq_nil_iff.mpr fun a ha => by
          simp [jsStrLt_asymm (hprelt a ha)]
      have h2 : jsStrLt ex.id ex.id = false := jsStrLt_irrefl _
      have h3 : (post.filter fun l => jsStrLt ex.id l.id) = post :=
        List.filter_eq_self.mpr fun b hb => hexp b hb
      simp [h1, h2, h3]
    have hslice : jsSliceLast lim post = post := by
      rw [jsSliceLast_of_pos lim hlim]
      have : post.length - lim = 0 := by omega
      rw [this, List.drop_zero]
    simp only [logsHandler, hid, if_neg, hfilter, hslice]
    simp [hid, hfilter, hslice]
  · have hpre_ne : ∀ a ∈ pre, (a.id != ex.id) = true := fun a ha => by
      have : a.id ≠ ex.id := jsStrLt_ne (hprelt a ha)
      simp [this]
    unfold suffixAfterId
    rw [dropWhile_append_of_forall _ _ hpre_ne, List.dropWhile_cons]
    simp

/-- C3 witness: three entries appended in distinct milliseconds; the
cursor at the id of the first entry returns exactly the two later entries. -/
theorem cursor_continuity_witness :
    ((([] : List LogEntry) ++ mkLogEntry "100-aa" "t1" "info" "admin" "m1" none ::
        [mkLogEntry "200-aa" "t2" "info" "admin" "m2" none,
         mkLogEntry "300-aa" "t3" "info" "admin" "m3" none]).Pairwise
      fun a b => jsStrLt a.id b.id = true) ∧
    (mkLogEntry "100-aa" "t1" "info" "admin" "m1" none).id ≠ "" ∧
    ([mkLogEntry "200-aa" "t2" "info" "admin" "m2" none,
      mkLogEntry "300-aa" "t3" "info" "admin" "m3" none].length ≤ 200) ∧
    (0 : Nat) < 200 ∧
    ((logsHandler
        (([] : List LogEntry) ++ mkLogEntry "100-aa" "t1" "info" "admin" "m1" none ::
          [mkLogEntry "200-aa" "t2" "info" "admin" "m2" none,
           mkLogEntry "300-aa" "t3" "info" "admin" "m3" none])
        none none (some (mkLogEntry "100-aa" "t1" "info" "admin" "m1" none).id)
        200).logs =
      [mkLogEntry "200-aa" "t2" "info" "admin" "m2" none,
       mkLogEntry "300-aa" "t3" "info" "admin" "m3" none] ∧
     suffixAfterId
        (([] : List LogEntry) ++ mkLogEntry "100-aa" "t1" "info" "admin" "m1" none ::
          [mkLogEntry "200-aa" "t2" "info" "admin" "m2" none,
           mkLogEntry "300-aa" "t3" "info" "admin" "m3" none])
        (mkLogEntry "100-aa" "t1" "info" "admin" "m1" none).id =
      [mkLogEntry "200-aa" "t2" "info" "admin" "m2" none,
       mkLogEntry "300-aa" "t3" "info" "admin" "m3" none]) :=
  ⟨by decide, by decide, by decide, by decide,
    cursor_continuity []
      [mkLogEntry "200-aa" "t2" "info" "admin" "m2" none,
       mkLogEntry "300-aa" "t3" "info" "admin" "m3" none]
      (mkLogEntry "100-aa" "t1" "info" "admin" "m1" none) 200
      (by decide) (by decide) (by decide) (by decide)⟩

end CashuAdmin
